import Mathlib

/-!
Verification of the recipe search-and-rank subsystem of the Smart Meal Planner
repository.

The repository's visible source is the React frontend (API client, search bar,
pages); the backend ranking engine (`backend/services/recommendation_engine.py`)
is referenced by the README and the API client but its code is not part of the
provided source.  Definitions below therefore fall in two groups:

* faithful embeddings of the frontend source (`recipeService.getRecommendations`,
  `recipeService.quickSearch`, `SearchBar.handleSubmit`, `HomePage.handleSearch`);
* models of the missing backend, each marked `Modelled from the spec:` in its
  doc comment, following the specification's description of TF-IDF
  vectorization, cosine-similarity ranking, conjunctive filters, and the HTTP
  error taxonomy.

Machine reals of the engine are modelled exactly: term weights are rational
(term frequency times a nonnegative idf weight) and the cosine similarity is a
real number `dot / (sqrt |q| * sqrt |d|)` with the zero-norm convention.
-/

namespace MealRec

/-- Recipe: immutable catalog entry (spec §3): identifier, name, description,
ingredients, steps, cooking time in minutes, difficulty, optional calories,
dietary tags and cuisine tags. -/
structure Recipe where
  id : Nat
  name : String
  description : String
  ingredients : List String
  steps : List String
  cooking_time : Nat
  difficulty : String
  calories : Option Nat
  dietary_tags : List String
  cuisine_tags : List String
deriving DecidableEq

/-- Query: free-text string, result count limit (default 6) and the optional
structured filters of the `recommend` contract (spec §3, §6). -/
structure Query where
  text : String
  n_recommendations : Nat := 6
  dietary_restrictions : Option String := none
  max_cooking_time : Option Nat := none
  difficulty : Option String := none
  cuisine : Option String := none
  meal_type : Option String := none
deriving DecidableEq

/-- Whitespace characters recognised when trimming query text. -/
def isWs (c : Char) : Bool :=
  c == ' ' || c == '\t' || c == '\n' || c == '\r'

/-- Characters dropped from both ends of a string when trimming. -/
def trimChars (l : List Char) : List Char :=
  ((l.dropWhile isWs).reverse.dropWhile isWs).reverse

/-- Model of `String.trim` / the JavaScript `query.trim()` used by the search
bar and of the whitespace stripping the validation step performs. -/
def trimStr (s : String) : String := String.mk (trimChars s.data)

/-- Modelled from the spec: the fixed stop-word list of the tokenization policy
(spec §4.1 requires a fixed, documented list; the hidden engine's exact list is
an open question, §9). -/
def stopWords : List String :=
  ["a", "an", "the", "and", "or", "of", "in", "with", "to", "for"]

/-- Accumulator-based scanner: lowercases alphanumeric runs and splits on every
non-alphanumeric character. -/
def tokenizeAux : List Char → List Char → List String
  | [], acc =>
    match acc with
    | [] => []
    | _ => [String.mk acc.reverse]
  | c :: cs, acc =>
    if c.isAlphanum then tokenizeAux cs (c.toLower :: acc)
    else
      match acc with
      | [] => tokenizeAux cs []
      | _ => String.mk acc.reverse :: tokenizeAux cs []

/-- Modelled from the spec: tokenization policy of the hidden engine (spec
§4.1): lowercase, split on non-alphanumeric boundaries, drop stop-words from a
fixed list, no stemming. -/
def tokenize (s : String) : List String :=
  (tokenizeAux s.data []).filter (fun t => !(stopWords.contains t))

/-- Space-separated concatenation of a list of strings. -/
def joinTokens : List String → List Char
  | [] => []
  | s :: ss => s.data ++ ' ' :: joinTokens ss

/-- Modelled from the spec: the designated text field used for scoring — the
concatenation of name, description, ingredients and tags (spec §4.1). -/
def docText (r : Recipe) : String :=
  String.mk (r.name.data ++ ' ' :: r.description.data ++ ' ' ::
    joinTokens (r.ingredients ++ r.dietary_tags ++ r.cuisine_tags))

/-- Modelled from the spec: the Recipe Index built once at startup over the
immutable corpus (spec §3, §4.1).  `recommendation_engine.py` is not part of
the provided source, so the index is modelled from the specification: it holds
the ordered corpus and a per-term inverse-document-frequency weight.  The spec
flags the engine's exact smoothed-logarithmic idf as an open question (§9), so
the idf is carried as a parameter; it is nonnegative, as any smoothed
logarithmic function of (corpus size / documents containing the term) is,
corpus size being at least the document count of every term. -/
structure RecipeIndex where
  recipes : List Recipe
  idf : String → ℚ
  idf_nonneg : ∀ t, 0 ≤ idf t

/-- Vocabulary of the index: every distinct term occurring in some recipe's
scoring text (spec §4.1), in first-occurrence order. -/
def vocabList (idx : RecipeIndex) : List String :=
  ((idx.recipes.map (fun r => tokenize (docText r))).flatten).dedup

/-- Term frequency: number of occurrences of a term in a tokenized text. -/
def tf (t : String) (text : String) : ℕ := (tokenize text).count t

/-- TF-IDF weight of a vocabulary term in a recipe's scoring text. -/
def docW (idx : RecipeIndex) (r : Recipe) (t : String) : ℚ :=
  (tf t (docText r) : ℚ) * idx.idf t

/-- TF-IDF weight of a vocabulary term in the query text; a query term absent
from the vocabulary has no dimension, so it contributes zero weight. -/
def queryW (idx : RecipeIndex) (qtext : String) (t : String) : ℚ :=
  ((tokenize qtext).count t : ℚ) * idx.idf t

/-- Dot product of the query vector and a recipe's weight vector over the
corpus vocabulary. -/
def dotQD (idx : RecipeIndex) (qtext : String) (r : Recipe) : ℚ :=
  ((vocabList idx).map (fun t => queryW idx qtext t * docW idx r t)).sum

/-- Squared Euclidean norm of the query vector. -/
def qnormSq (idx : RecipeIndex) (qtext : String) : ℚ :=
  ((vocabList idx).map (fun t => queryW idx qtext t ^ 2)).sum

/-- Squared Euclidean norm of a recipe's weight vector. -/
def dnormSq (idx : RecipeIndex) (r : Recipe) : ℚ :=
  ((vocabList idx).map (fun t => docW idx r t ^ 2)).sum

/-- Squared cosine similarity, the rational ranking key: `dot² / (|q|²·|d|²)`,
with the zero-norm convention.  Ordering recipes by this key is ordering them
by cosine similarity, since the similarity is nonnegative and the square root
is monotone (`cosineSim_eq_sqrt_scoreSq`). -/
def scoreSq (idx : RecipeIndex) (qtext : String) (r : Recipe) : ℚ :=
  if qnormSq idx qtext = 0 ∨ dnormSq idx r = 0 then 0
  else dotQD idx qtext r ^ 2 / (qnormSq idx qtext * dnormSq idx r)

/-- Modelled from the spec: cosine similarity
`score = dot(q, d) / (|q| * |d|)`, with the convention that a zero-norm query
or document yields a score of 0 rather than a division failure (spec §4.2). -/
noncomputable def cosineSim (idx : RecipeIndex) (qtext : String) (r : Recipe) : ℝ :=
  if qnormSq idx qtext = 0 ∨ dnormSq idx r = 0 then 0
  else (dotQD idx qtext r : ℝ) /
    (Real.sqrt (qnormSq idx qtext) * Real.sqrt (dnormSq idx r))

/-- ScoredResult: a Recipe paired with its similarity score (spec §3). -/
structure ScoredResult where
  recipe : Recipe
  similarity_score : ℝ

/-- Dietary-restriction filter: the restriction tag must be present in the
recipe's dietary tags (spec §4.2). -/
def dietOk (q : Query) (r : Recipe) : Bool :=
  match q.dietary_restrictions with
  | none => true
  | some d => r.dietary_tags.contains d

/-- Max-cooking-time filter: excludes recipes with cooking time strictly
greater than the bound (spec §4.2). -/
def timeOk (q : Query) (r : Recipe) : Bool :=
  match q.max_cooking_time with
  | none => true
  | some m => r.cooking_time ≤ m

/-- Lowercased copy of a string, for case-insensitive comparisons. -/
def lowerStr (s : String) : String := String.mk (s.data.map Char.toLower)

/-- Difficulty filter: exact case-insensitive match (spec §4.2). -/
def diffOk (q : Query) (r : Recipe) : Bool :=
  match q.difficulty with
  | none => true
  | some d => lowerStr r.difficulty == lowerStr d

/-- Does the pattern occur at the head of the text? -/
def startsChars : List Char → List Char → Bool
  | [], _ => true
  | _ :: _, [] => false
  | a :: as, b :: bs => a == b && startsChars as bs

/-- Does the pattern occur anywhere in the text? -/
def containsChars (pat : List Char) : List Char → Bool
  | [] => pat.isEmpty
  | c :: cs => startsChars pat (c :: cs) || containsChars pat cs

/-- Substring test on strings. -/
def strContains (s pat : String) : Bool := containsChars pat.data s.data

/-- Cuisine filter: exact or substring match against the recipe's cuisine tags,
case-insensitively (spec §4.2). -/
def cuisineOk (q : Query) (r : Recipe) : Bool :=
  match q.cuisine with
  | none => true
  | some c =>
    r.cuisine_tags.any (fun t =>
      lowerStr t == lowerStr c || strContains (lowerStr t) (lowerStr c))

/-- Modelled from the spec: conjunctive structured filters (spec §4.2).  The
meal-type filter is advisory and is ignored, a choice the spec explicitly
allows ("may be implemented as a heuristic filter or ignored"). -/
def matchesFilters (q : Query) (r : Recipe) : Bool :=
  dietOk q r && timeOk q r && diffOk q r && cuisineOk q r

/-- Stable insertion into a list sorted by non-increasing ranking key: the
incoming element, which comes earlier in corpus order, is placed before every
element whose key does not exceed its own, so equal keys keep corpus order
(spec §4.2 tie-breaking). -/
def insertDesc (p : Recipe × ℚ) : List (Recipe × ℚ) → List (Recipe × ℚ)
  | [] => [p]
  | q :: qs => if q.2 ≤ p.2 then p :: q :: qs else q :: insertDesc p qs

/-- Stable insertion sort by non-increasing ranking key. -/
def sortDesc : List (Recipe × ℚ) → List (Recipe × ℚ)
  | [] => []
  | x :: xs => insertDesc x (sortDesc xs)

/-- Modelled from the spec: the Query Ranker pipeline (spec §4.2): apply the
structured filters as a pre-filter over candidates (the spec allows pre- or
post-filtering, requiring equivalent results), score every candidate, rank by
descending score with deterministic stable ties, and keep the top
`n_recommendations`. -/
def rank (idx : RecipeIndex) (q : Query) : List (Recipe × ℚ) :=
  (sortDesc ((idx.recipes.filter (fun r => matchesFilters q r)).map
    (fun r => (r, scoreSq idx q.text r)))).take q.n_recommendations

/-- Error taxonomy of the ranking core visible to its callers (spec §7); the
unavailable condition lives at the HTTP layer (`recommendEndpoint`). -/
inductive RecError where
  | validationError
deriving DecidableEq

/-- Modelled from the spec: `recommend` (spec §4.2, §6): an empty query text
after trimming is rejected with a validation error before scoring; otherwise
the top results are returned, each recipe augmented with its cosine similarity
score. -/
noncomputable def recommend (idx : RecipeIndex) (q : Query) :
    Except RecError (List ScoredResult) :=
  if trimStr q.text = "" then .error .validationError
  else .ok ((rank idx q).map (fun p => ⟨p.1, cosineSim idx q.text p.1⟩))

/-- Result list of a `recommend` call; an error carries no results. -/
def resultsOf : Except RecError (List ScoredResult) → List ScoredResult
  | .ok rs => rs
  | .error _ => []

/-- Modelled from the spec: the quick-search variant (spec §4.2, §6): the same
scoring path as `recommend`, with no structured filters supplied. -/
noncomputable def quickSearch (idx : RecipeIndex) (qtext : String) (limit : Nat) :
    Except RecError (List ScoredResult) :=
  recommend idx { text := qtext, n_recommendations := limit }

/-- Modelled from the spec: the backend default result count of the
`recommend` contract (spec §6: `n_recommendations?: int=6`). -/
def recommendDefaultN : Nat := 6

/-- Default `limit` of the client's `quickSearch` in
src/frontend `services/api.js`: `quickSearch: async (query, limit = 6)`. -/
def quickSearchDefaultLimit : Nat := 6

/-- Modelled from the spec: detail lookup (spec §4.3): the first corpus record
carrying the identifier, or a not-found signal. -/
def getById (idx : RecipeIndex) (i : Nat) : Option Recipe :=
  idx.recipes.find? (fun r => r.id == i)

/-- Client-side filters object of `recipeService.getRecommendations` in
src/frontend `services/api.js`; absent fields model JavaScript `undefined`. -/
structure ClientFilters where
  n_recommendations : Option Nat := none
  dietary_restrictions : Option String := none
  max_cooking_time : Option Nat := none
  difficulty : Option String := none
  cuisine : Option String := none
  meal_type : Option String := none

/-- JavaScript `filters.n_recommendations || 6`: the default 6 replaces an
absent value and every falsy number, of which the natural numbers have
exactly one, zero. -/
def jsOrSix (v : Option Nat) : Nat :=
  match v with
  | none => 6
  | some n => if n = 0 then 6 else n

/-- Request body built by `recipeService.getRecommendations` in src/frontend
`services/api.js` for POST /recipes/recommend. -/
def getRecommendationsBody (query : String) (filters : ClientFilters) : Query :=
  { text := query
    n_recommendations := jsOrSix filters.n_recommendations
    dietary_restrictions := filters.dietary_restrictions
    max_cooking_time := filters.max_cooking_time
    difficulty := filters.difficulty
    cuisine := filters.cuisine
    meal_type := filters.meal_type }

/-- `handleSubmit` of src/frontend/src/components/SearchBar.jsx: the search is
invoked with the trimmed query only when the trimmed query is nonempty
(JavaScript truthiness of `query.trim()`); otherwise nothing is invoked. -/
def handleSubmit (query : String) : Option String :=
  if trimStr query = "" then none else some (trimStr query)

/-- Wire response of the recommend endpoint: an HTTP status code, and the
recommendation list when the request succeeded. -/
structure HttpResponse where
  status : Nat
  recommendations : Option (List ScoredResult)

/-- Modelled from the spec: the HTTP layer of POST /recipes/recommend (spec
§6, §7): 503 while the corpus/index is not ready, a validation-error status
for an empty query, and 200 with the result list — possibly empty — on
success. -/
noncomputable def recommendEndpoint : Option RecipeIndex → Query → HttpResponse
  | none, _ => { status := 503, recommendations := none }
  | some idx, q =>
    match recommend idx q with
    | .error .validationError => { status := 422, recommendations := none }
    | .ok rs => { status := 200, recommendations := some rs }

/-- UI states of the home page distinguishable by the user. -/
inductive UIState where
  | errorUnavailable
  | errorGeneric
  | resultsShown (rs : List ScoredResult)
  | emptyState

/-- `handleSearch` of src/unnamed/part_000 (HomePage): axios rejects on any
error status, and the handler shows the data-unavailable message exactly for
status 503; on success it stores `data.recommendations || []` and the page
shows the empty state when no recipes and no error are present. -/
def handleSearch (resp : HttpResponse) : UIState :=
  if 400 ≤ resp.status then
    if resp.status = 503 then .errorUnavailable else .errorGeneric
  else
    match resp.recommendations with
    | some [] => .emptyState
    | none => .emptyState
    | some rs => .resultsShown rs

/-! Helper lemmas about the stable descending sort. -/

theorem insertDesc_perm (p : Recipe × ℚ) (l : List (Recipe × ℚ)) :
    (insertDesc p l).Perm (p :: l) := by
  induction l with
  | nil => rfl
  | cons q qs ih =>
    by_cases h : q.2 ≤ p.2
    · simp [insertDesc, h]
    · simpa [insertDesc, h] using (ih.cons q).trans (List.Perm.swap p q qs)

theorem sortDesc_perm (l : List (Recipe × ℚ)) : (sortDesc l).Perm l := by
  induction l with
  | nil => rfl
  | cons x xs ih => exact (insertDesc_perm x (sortDesc xs)).trans (ih.cons x)

theorem mem_insertDesc {a p : Recipe × ℚ} {l : List (Recipe × ℚ)} :
    a ∈ insertDesc p l ↔ a = p ∨ a ∈ l := by
  rw [(insertDesc_perm p l).mem_iff, List.mem_cons]

theorem sorted_insertDesc {p : Recipe × ℚ} {l : List (Recipe × ℚ)}
    (h : l.Pairwise (fun a b => b.2 ≤ a.2)) :
    (insertDesc p l).Pairwise (fun a b => b.2 ≤ a.2) := by
  induction l with
  | nil => simp [insertDesc]
  | cons q qs ih =>
    rcases List.pairwise_cons.mp h with ⟨hq, hqs⟩
    by_cases hle : q.2 ≤ p.2
    · rw [insertDesc, if_pos hle]
      refine List.pairwise_cons.mpr ⟨?_, h⟩
      intro y hy
      rcases List.mem_cons.mp hy with rfl | hy'
      · exact hle
      · exact le_trans (hq y hy') hle
    · rw [insertDesc, if_neg hle]
      refine List.pairwise_cons.mpr ⟨?_, ih hqs⟩
      intro y hy
      rcases mem_insertDesc.mp hy with rfl | hy'
      · exact le_of_lt (lt_of_not_ge hle)
      · exact hq y hy'

theorem sorted_sortDesc (l : List (Recipe × ℚ)) :
    (sortDesc l).Pairwise (fun a b => b.2 ≤ a.2) := by
  induction l with
  | nil => simp [sortDesc]
  | cons x xs ih => exact sorted_insertDesc ih

/-! Helper lemmas about the ranking pipeline. -/

theorem rank_length_le (idx : RecipeIndex) (q : Query) :
    (rank idx q).length ≤ q.n_recommendations := by
  unfold rank
  exact (List.length_take _ _).le.trans (min_le_left _ _)

theorem rank_sorted (idx : RecipeIndex) (q : Query) :
    (rank idx q).Pairwise (fun a b => b.2 ≤ a.2) := by
  unfold rank
  exact List.Pairwise.sublist (List.take_sublist _ _) (sorted_sortDesc _)

theorem mem_rank {idx : RecipeIndex} {q : Query} {p : Recipe × ℚ}
    (h : p ∈ rank idx q) :
    p.1 ∈ idx.recipes ∧ matchesFilters q p.1 = true ∧
      p.2 = scoreSq idx q.text p.1 := by
  unfold rank at h
  have h1 := (sortDesc_perm _).subset (List.take_subset _ _ h)
  rcases List.mem_map.mp h1 with ⟨r, hr, rfl⟩
  rcases List.mem_filter.mp hr with ⟨hmem, hflt⟩
  exact ⟨hmem, hflt, rfl⟩

theorem recommend_ok {idx : RecipeIndex} {q : Query} (h : trimStr q.text ≠ "") :
    recommend idx q =
      .ok ((rank idx q).map (fun p => ⟨p.1, cosineSim idx q.text p.1⟩)) := by
  simp [recommend, h]

theorem mem_resultsOf_recommend {idx : RecipeIndex} {q : Query} {r : ScoredResult}
    (h : r ∈ resultsOf (recommend idx q)) :
    ∃ p ∈ rank idx q, r = ⟨p.1, cosineSim idx q.text p.1⟩ := by
  by_cases hq : trimStr q.text = ""
  · simp [recommend, hq, resultsOf] at h
  · rw [recommend_ok hq] at h
    simp only [resultsOf] at h
    rcases List.mem_map.mp h with ⟨p, hp, rfl⟩
    exact ⟨p, hp, rfl⟩

/-! Helper lemmas about weights and cosine scores. -/

theorem queryW_nonneg (idx : RecipeIndex) (qt t : String) :
    0 ≤ queryW idx qt t :=
  mul_nonneg (Nat.cast_nonneg _) (idx.idf_nonneg t)

theorem docW_nonneg (idx : RecipeIndex) (r : Recipe) (t : String) :
    0 ≤ docW idx r t :=
  mul_nonneg (Nat.cast_nonneg _) (idx.idf_nonneg t)

theorem dotQD_nonneg (idx : RecipeIndex) (qt : String) (r : Recipe) :
    0 ≤ dotQD idx qt r := by
  apply List.sum_nonneg
  intro x hx
  rcases List.mem_map.mp hx with ⟨t, _, rfl⟩
  exact mul_nonneg (queryW_nonneg idx qt t) (docW_nonneg idx r t)

theorem qnormSq_nonneg (idx : RecipeIndex) (qt : String) :
    0 ≤ qnormSq idx qt := by
  apply List.sum_nonneg
  intro x hx
  rcases List.mem_map.mp hx with ⟨t, _, rfl⟩
  exact sq_nonneg _

theorem dnormSq_nonneg (idx : RecipeIndex) (r : Recipe) :
    0 ≤ dnormSq idx r := by
  apply List.sum_nonneg
  intro x hx
  rcases List.mem_map.mp hx with ⟨t, _, rfl⟩
  exact sq_nonneg _

/-- Cauchy-Schwarz for the query and document weight vectors. -/
theorem dotQD_sq_le (idx : RecipeIndex) (qt : String) (r : Recipe) :
    dotQD idx qt r ^ 2 ≤ qnormSq idx qt * dnormSq idx r := by
  have hnd : (vocabList idx).Nodup := List.nodup_dedup _
  have h1 := List.sum_toFinset (fun t => queryW idx qt t * docW idx r t) hnd
  have h2 := List.sum_toFinset (fun t => queryW idx qt t ^ 2) hnd
  have h3 := List.sum_toFinset (fun t => docW idx r t ^ 2) hnd
  have hcs := Finset.sum_mul_sq_le_sq_mul_sq (vocabList idx).toFinset
    (fun t => queryW idx qt t) (fun t => docW idx r t)
  unfold dotQD qnormSq dnormSq
  rw [← h1, ← h2, ← h3]
  exact hcs

theorem scoreSq_nonneg (idx : RecipeIndex) (qt : String) (r : Recipe) :
    0 ≤ scoreSq idx qt r := by
  unfold scoreSq
  by_cases h : qnormSq idx qt = 0 ∨ dnormSq idx r = 0
  · simp [h]
  · rw [if_neg h]
    exact div_nonneg (sq_nonneg _)
      (mul_nonneg (qnormSq_nonneg idx qt) (dnormSq_nonneg idx r))

theorem scoreSq_le_one (idx : RecipeIndex) (qt : String) (r : Recipe) :
    scoreSq idx qt r ≤ 1 := by
  unfold scoreSq
  by_cases h : qnormSq idx qt = 0 ∨ dnormSq idx r = 0
  · simp [h]
  · rw [if_neg h]
    push_neg at h
    have hq : 0 < qnormSq idx qt :=
      lt_of_le_of_ne (qnormSq_nonneg idx qt) (Ne.symm h.1)
    have hd : 0 < dnormSq idx r :=
      lt_of_le_of_ne (dnormSq_nonneg idx r) (Ne.symm h.2)
    rw [div_le_one (mul_pos hq hd)]
    exact dotQD_sq_le idx qt r

theorem cosineSim_eq_sqrt_scoreSq (idx : RecipeIndex) (qt : String) (r : Recipe) :
    cosineSim idx qt r = Real.sqrt (scoreSq idx qt r) := by
  unfold cosineSim scoreSq
  by_cases h : qnormSq idx qt = 0 ∨ dnormSq idx r = 0
  · simp [h]
  · rw [if_neg h, if_neg h]
    push_neg at h
    have hq : 0 < qnormSq idx qt :=
      lt_of_le_of_ne (qnormSq_nonneg idx qt) (Ne.symm h.1)
    have hdotc : (0:ℝ) ≤ (dotQD idx qt r : ℝ) := by
      exact_mod_cast dotQD_nonneg idx qt r
    have hqc : (0:ℝ) ≤ (qnormSq idx qt : ℝ) := by exact_mod_cast hq.le
    push_cast
    rw [Real.sqrt_div (sq_nonneg _), Real.sqrt_sq hdotc, Real.sqrt_mul hqc]

theorem cosineSim_nonneg (idx : RecipeIndex) (qt : String) (r : Recipe) :
    0 ≤ cosineSim idx qt r := by
  rw [cosineSim_eq_sqrt_scoreSq]
  exact Real.sqrt_nonneg _

theorem cosineSim_le_one (idx : RecipeIndex) (qt : String) (r : Recipe) :
    cosineSim idx qt r ≤ 1 := by
  rw [cosineSim_eq_sqrt_scoreSq]
  have h : ((scoreSq idx qt r : ℝ)) ≤ 1 := by
    exact_mod_cast scoreSq_le_one idx qt r
  calc Real.sqrt (scoreSq idx qt r) ≤ Real.sqrt 1 := Real.sqrt_le_sqrt h
    _ = 1 := Real.sqrt_one

theorem cosineSim_mono {idx : RecipeIndex} {qt : String} {a b : Recipe}
    (h : scoreSq idx qt b ≤ scoreSq idx qt a) :
    cosineSim idx qt b ≤ cosineSim idx qt a := by
  rw [cosineSim_eq_sqrt_scoreSq, cosineSim_eq_sqrt_scoreSq]
  exact Real.sqrt_le_sqrt (by exact_mod_cast h)

/-! Concrete corpora used to instantiate the theorems: the three-recipe
example of spec §8, and a one-recipe corpus. -/

def chickenSoup : Recipe :=
  { id := 1, name := "Chicken Soup", description := "warm chicken soup",
    ingredients := ["chicken", "water", "salt"],
    steps := ["boil water", "add chicken"], cooking_time := 30,
    difficulty := "easy", calories := some 200, dietary_tags := [],
    cuisine_tags := ["american"] }

def vegPasta : Recipe :=
  { id := 2, name := "Vegetarian Pasta", description := "fresh pasta",
    ingredients := ["pasta", "tomato"], steps := ["boil pasta"],
    cooking_time := 20, difficulty := "easy", calories := some 350,
    dietary_tags := ["vegetarian"], cuisine_tags := ["italian"] }

def beefSteak : Recipe :=
  { id := 3, name := "Beef Steak", description := "grilled beef steak",
    ingredients := ["beef", "pepper"], steps := ["grill beef"],
    cooking_time := 45, difficulty := "hard", calories := some 500,
    dietary_tags := [], cuisine_tags := ["american"] }

/-- Spec §8 example corpus, indexed with the constant idf weight 1. -/
def sampleIndex : RecipeIndex :=
  { recipes := [chickenSoup, vegPasta, beefSteak],
    idf := fun _ => 1, idf_nonneg := fun _ => zero_le_one }

def beefRecipe : Recipe :=
  { id := 7, name := "beef", description := "", ingredients := ["beef"],
    steps := [], cooking_time := 25, difficulty := "easy", calories := none,
    dietary_tags := ["keto"], cuisine_tags := ["american"] }

/-- One-recipe corpus, indexed with the constant idf weight 1. -/
def beefIndex : RecipeIndex :=
  { recipes := [beefRecipe], idf := fun _ => 1,
    idf_nonneg := fun _ => zero_le_one }

/-! Claim theorems. -/

/-- C1: for every non-empty query, `recommend` returns at most
`n_recommendations` ScoredResults, and the returned list is sorted by
non-increasing `similarity_score`. -/
theorem recommend_count_le_and_sorted (idx : RecipeIndex) (q : Query)
    (h : trimStr q.text ≠ "") :
    (resultsOf (recommend idx q)).length ≤ q.n_recommendations ∧
    (resultsOf (recommend idx q)).Sorted
      (fun a b => b.similarity_score ≤ a.similarity_score) := by
  rw [recommend_ok h]
  simp only [resultsOf]
  constructor
  · rw [List.length_map]
    exact rank_length_le idx q
  · refine List.pairwise_map.mpr ?_
    refine List.Pairwise.imp_of_mem ?_ (rank_sorted idx q)
    intro a b ha hb hab
    have h2a := (mem_rank ha).2.2
    have h2b := (mem_rank hb).2.2
    rw [h2a, h2b] at hab
    exact cosineSim_mono hab

/-- Witness for C1 at the spec §8 example corpus and the query
"chicken soup". -/
theorem recommend_count_le_and_sorted_witness :
    (resultsOf (recommend sampleIndex { text := "chicken soup" })).length ≤ 6 ∧
    (resultsOf (recommend sampleIndex { text := "chicken soup" })).Sorted
      (fun a b => b.similarity_score ≤ a.similarity_score) :=
  recommend_count_le_and_sorted sampleIndex { text := "chicken soup" }
    (by decide)

/-- C3: two runs of `recommend` with the identical query (text, limit and
filters) against the identical unchanged index produce the identical ordered
output; the modelled engine is a pure function of the index and the query, so
determinism — including tie-breaking, fixed by the stable sort on corpus
order — holds definitionally. -/
theorem recommend_deterministic (idx : RecipeIndex) (q q' : Query)
    (ht : q.text = q'.text)
    (hn : q.n_recommendations = q'.n_recommendations)
    (hd : q.dietary_restrictions = q'.dietary_restrictions)
    (hm : q.max_cooking_time = q'.max_cooking_time)
    (hf : q.difficulty = q'.difficulty)
    (hc : q.cuisine = q'.cuisine)
    (hmt : q.meal_type = q'.meal_type) :
    recommend idx q = recommend idx q' := by
  have hqq : q = q' := by
    cases q
    cases q'
    simp_all
  rw [hqq]

/-- Witness for C3: two syntactically distinct but field-equal queries. -/
theorem recommend_deterministic_witness :
    recommend sampleIndex { text := "chicken soup" } =
      recommend sampleIndex
        { text := "chicken soup", n_recommendations := 6,
          dietary_restrictions := none, max_cooking_time := none,
          difficulty := none, cuisine := none, meal_type := none } :=
  recommend_deterministic sampleIndex _ _ rfl rfl rfl rfl rfl rfl rfl

/-- C5: a query whose text is empty or whitespace-only after trimming is
rejected before any scoring work: the search bar never invokes the search, and
the engine returns the validation error whatever the index is — the outcome
does not depend on the corpus, so the scoring path is never consulted. -/
theorem empty_query_rejected_before_scoring (q : Query)
    (h : trimStr q.text = "") :
    handleSubmit q.text = none ∧
    ∀ idx : RecipeIndex, recommend idx q = .error .validationError := by
  constructor
  · simp [handleSubmit, h]
  · intro idx
    simp [recommend, h]

/-- Witness for C5 at the whitespace-only query "   ". -/
theorem empty_query_rejected_before_scoring_witness :
    handleSubmit ("   " : String) = none ∧
    recommend beefIndex { text := "   " } = .error .validationError :=
  ⟨(empty_query_rejected_before_scoring { text := "   " } (by decide)).1,
   (empty_query_rejected_before_scoring { text := "   " } (by decide)).2
     beefIndex⟩

/-- C8: detail lookup returns the full Recipe record from the corpus when the
identifier is present, and a not-found signal exactly when it is absent; the
lookup is a total function, so no crash is possible, and a found record is
always a corpus member with the looked-up identifier, never an
empty-but-found record. -/
theorem getById_found_or_not_found (idx : RecipeIndex) (i : Nat) :
    (∀ r, getById idx i = some r → r ∈ idx.recipes ∧ r.id = i) ∧
    (getById idx i = none ↔ ∀ r ∈ idx.recipes, r.id ≠ i) := by
  constructor
  · intro r hr
    rw [getById] at hr
    refine ⟨List.mem_of_find?_eq_some hr, ?_⟩
    have := List.find?_some hr
    simpa using this
  · rw [getById, List.find?_eq_none]
    constructor
    · intro h r hr
      simpa using h r hr
    · intro h r hr
      simpa using h r hr

/-- Witness for C8: id 2 is found as the full vegPasta record, id 99 is
not found. -/
theorem getById_found_or_not_found_witness :
    (vegPasta ∈ sampleIndex.recipes ∧ vegPasta.id = 2) ∧
    getById sampleIndex 99 = none :=
  ⟨(getById_found_or_not_found sampleIndex 2).1 vegPasta (by decide),
   (getById_found_or_not_found sampleIndex 99).2.mpr (by decide)⟩

/-- C9 counterexample: the claim says quickSearch has a smaller default result
count than recommend's default of 6, but the client's quickSearch default
limit is 6, which is not smaller. -/
theorem quickSearch_default_not_smaller :
    ¬ (quickSearchDefaultLimit < recommendDefaultN) := by decide

/-- C9 amended: quickSearch uses the same scoring path as `recommend`, applies
no structured filters, and its default result count equals recommend's
default of 6. -/
theorem quickSearch_same_path_no_filters (idx : RecipeIndex) (t : String)
    (l : Nat) :
    quickSearch idx t l =
      recommend idx
        { text := t, n_recommendations := l, dietary_restrictions := none,
          max_cooking_time := none, difficulty := none, cuisine := none,
          meal_type := none } ∧
    quickSearchDefaultLimit = recommendDefaultN ∧ recommendDefaultN = 6 :=
  ⟨rfl, rfl, rfl⟩

/-- C10: the client's getRecommendations sends `n_recommendations = 6`
whenever the filter value is absent or falsy (zero being the only falsy
natural number), so a caller cannot request zero recommendations through this
client. -/
theorem getRecommendations_default_n (query : String) (f : ClientFilters) :
    ((f.n_recommendations = none ∨ f.n_recommendations = some 0) →
      (getRecommendationsBody query f).n_recommendations = 6) ∧
    0 < (getRecommendationsBody query f).n_recommendations := by
  constructor
  · rintro (h | h) <;> simp [getRecommendationsBody, jsOrSix, h]
  · rcases hn : f.n_recommendations with _ | n
    · simp [getRecommendationsBody, jsOrSix, hn]
    · by_cases h0 : n = 0
      · simp [getRecommendationsBody, jsOrSix, hn, h0]
      · simp only [getRecommendationsBody, jsOrSix, hn, if_neg h0]
        exact Nat.pos_of_ne_zero h0

/-- Witness for C10: an explicit request for zero recommendations is replaced
by the default 6. -/
theorem getRecommendations_default_n_witness :
    (getRecommendationsBody "beef"
      { n_recommendations := some 0 }).n_recommendations = 6 :=
  (getRecommendations_default_n "beef" { n_recommendations := some 0 }).1
    (Or.inr rfl)

/-- Query with all four effective structured filters supplied, matching
`beefRecipe`. -/
def beefQuery : Query :=
  { text := "beef", dietary_restrictions := some "keto",
    max_cooking_time := some 30, difficulty := some "Easy",
    cuisine := some "amer" }

theorem rank_beefQuery :
    rank beefIndex beefQuery =
      [(beefRecipe, scoreSq beefIndex beefQuery.text beefRecipe)] := by
  rw [rank,
    (by decide :
      List.filter (fun r => matchesFilters beefQuery r) beefIndex.recipes =
        [beefRecipe])]
  rfl

theorem mem_beefQuery_results :
    (⟨beefRecipe, cosineSim beefIndex beefQuery.text beefRecipe⟩ :
      ScoredResult) ∈ resultsOf (recommend beefIndex beefQuery) := by
  rw [recommend_ok (by decide)]
  simp only [resultsOf]
  rw [rank_beefQuery]
  exact List.mem_singleton.mpr rfl

/-- C2: every recipe in a returned result set satisfies every supplied
structured filter conjunctively: the dietary restriction tag is present, the
cooking time does not strictly exceed a supplied bound, the difficulty matches
case-insensitively, and the cuisine matches a cuisine tag exactly or as a
substring.  (The meal-type filter is advisory and ignored, as spec §4.2
allows.) -/
theorem recommend_results_satisfy_filters (idx : RecipeIndex) (q : Query)
    (r : ScoredResult) (h : r ∈ resultsOf (recommend idx q)) :
    (∀ d, q.dietary_restrictions = some d → d ∈ r.recipe.dietary_tags) ∧
    (∀ m, q.max_cooking_time = some m → r.recipe.cooking_time ≤ m) ∧
    (∀ d, q.difficulty = some d →
      lowerStr r.recipe.difficulty = lowerStr d) ∧
    (∀ c, q.cuisine = some c → ∃ t ∈ r.recipe.cuisine_tags,
      lowerStr t = lowerStr c ∨
        strContains (lowerStr t) (lowerStr c) = true) := by
  rcases mem_resultsOf_recommend h with ⟨p, hp, rfl⟩
  have hflt := (mem_rank hp).2.1
  simp only [matchesFilters, Bool.and_eq_true] at hflt
  obtain ⟨⟨⟨h1, h2⟩, h3⟩, h4⟩ := hflt
  refine ⟨?_, ?_, ?_, ?_⟩
  · intro d hd
    simp only [dietOk, hd] at h1
    simpa using h1
  · intro m hm
    simp only [timeOk, hm] at h2
    simpa using h2
  · intro d hd
    simp only [diffOk, hd] at h3
    exact eq_of_beq h3
  · intro c hc
    simp only [cuisineOk, hc] at h4
    rcases List.any_eq_true.mp h4 with ⟨t, ht, htc⟩
    rw [Bool.or_eq_true] at htc
    refine ⟨t, ht, ?_⟩
    rcases htc with hb | hb
    · exact Or.inl (eq_of_beq hb)
    · exact Or.inr hb

/-- Witness for C2: the result returned for `beefQuery` (all filters
supplied) satisfies the dietary, cooking-time and difficulty filters. -/
theorem recommend_results_satisfy_filters_witness :
    ("keto" : String) ∈ beefRecipe.dietary_tags ∧
    beefRecipe.cooking_time ≤ 30 ∧
    lowerStr beefRecipe.difficulty = lowerStr "Easy" := by
  have happ := recommend_results_satisfy_filters beefIndex beefQuery
    ⟨beefRecipe, cosineSim beefIndex beefQuery.text beefRecipe⟩
    mem_beefQuery_results
  exact ⟨happ.1 "keto" rfl, happ.2.1 30 rfl, happ.2.2.1 "Easy" rfl⟩

/-- C4: every `similarity_score` in every result set returned by `recommend`
or `quickSearch` lies in the closed interval [0, 1]. -/
theorem similarity_scores_in_unit_interval :
    (∀ (idx : RecipeIndex) (q : Query) (r : ScoredResult),
      r ∈ resultsOf (recommend idx q) →
      0 ≤ r.similarity_score ∧ r.similarity_score ≤ 1) ∧
    (∀ (idx : RecipeIndex) (t : String) (l : Nat) (r : ScoredResult),
      r ∈ resultsOf (quickSearch idx t l) →
      0 ≤ r.similarity_score ∧ r.similarity_score ≤ 1) := by
  have main : ∀ (idx : RecipeIndex) (q : Query) (r : ScoredResult),
      r ∈ resultsOf (recommend idx q) →
      0 ≤ r.similarity_score ∧ r.similarity_score ≤ 1 := by
    intro idx q r h
    rcases mem_resultsOf_recommend h with ⟨p, hp, rfl⟩
    exact ⟨cosineSim_nonneg idx q.text p.1, cosineSim_le_one idx q.text p.1⟩
  exact ⟨main, fun idx t l r h => main idx _ r h⟩

/-- Witness for C4: the score of the result returned for `beefQuery` is in
[0, 1]. -/
theorem similarity_scores_in_unit_interval_witness :
    0 ≤ cosineSim beefIndex beefQuery.text beefRecipe ∧
    cosineSim beefIndex beefQuery.text beefRecipe ≤ 1 :=
  similarity_scores_in_unit_interval.1 beefIndex beefQuery
    ⟨beefRecipe, cosineSim beefIndex beefQuery.text beefRecipe⟩
    mem_beefQuery_results

/-- C6: a query all of whose terms are absent from the corpus vocabulary
succeeds (no error) and every returned score is 0; in general a zero-norm
query or document vector yields a score of 0 by convention rather than a
division failure. -/
theorem oov_query_zero_scores (idx : RecipeIndex) (q : Query)
    (h1 : trimStr q.text ≠ "")
    (h2 : ∀ t ∈ tokenize q.text, t ∉ vocabList idx) :
    (recommend idx q).isOk = true ∧
    (∀ r ∈ resultsOf (recommend idx q), r.similarity_score = 0) ∧
    (∀ (qt : String) (r : Recipe),
      qnormSq idx qt = 0 ∨ dnormSq idx r = 0 → cosineSim idx qt r = 0) := by
  have hqw : ∀ t ∈ vocabList idx, queryW idx q.text t = 0 := by
    intro t ht
    have hnm : t ∉ tokenize q.text := fun hmem => h2 t hmem ht
    simp [queryW, List.count_eq_zero.mpr hnm]
  have hqn : qnormSq idx q.text = 0 := by
    apply List.sum_eq_zero
    intro x hx
    rcases List.mem_map.mp hx with ⟨t, ht, rfl⟩
    simp [hqw t ht]
  refine ⟨?_, ?_, ?_⟩
  · rw [recommend_ok h1]
    rfl
  · intro r hr
    rcases mem_resultsOf_recommend hr with ⟨p, hp, rfl⟩
    show cosineSim idx q.text p.1 = 0
    simp only [cosineSim]
    rw [if_pos (Or.inl hqn)]
  · intro qt r h
    simp only [cosineSim]
    rw [if_pos h]

/-- Witness for C6: the query "zzz qqq" shares no term with the spec example
corpus vocabulary, and the call succeeds. -/
theorem oov_query_zero_scores_witness :
    (recommend sampleIndex { text := "zzz qqq" }).isOk = true :=
  (oov_query_zero_scores sampleIndex { text := "zzz qqq" } (by decide)
    (by decide)).1

/-- Spec §8 example query: "pasta" with max_cooking_time 15, which filters
out every recipe of the example corpus. -/
def pastaQuery : Query := { text := "pasta", max_cooking_time := some 15 }

/-- C7: an empty result set is a valid non-error response (status 200 with
zero entries, rendered as the empty state), while the service-unavailable
condition is a distinct status (503, rendered as the unavailable error
message), so the two are distinguishable on the wire. -/
theorem empty_results_vs_unavailable (idx : RecipeIndex) (q : Query)
    (h1 : trimStr q.text ≠ "") (h2 : rank idx q = []) :
    (recommendEndpoint (some idx) q).status = 200 ∧
    (recommendEndpoint (some idx) q).recommendations = some [] ∧
    handleSearch (recommendEndpoint (some idx) q) = UIState.emptyState ∧
    (recommendEndpoint none q).status = 503 ∧
    handleSearch (recommendEndpoint none q) = UIState.errorUnavailable ∧
    (recommendEndpoint none q).status ≠
      (recommendEndpoint (some idx) q).status := by
  have hrec : recommend idx q = .ok [] := by
    rw [recommend_ok h1, h2]
    rfl
  have hend : recommendEndpoint (some idx) q =
      { status := 200, recommendations := some [] } := by
    simp [recommendEndpoint, hrec]
  have hnone : recommendEndpoint none q =
      { status := 503, recommendations := none } := rfl
  refine ⟨by rw [hend], by rw [hend], ?_, by rw [hnone], ?_, ?_⟩
  · rw [hend]
    simp [handleSearch]
  · rw [hnone]
    simp [handleSearch]
  · rw [hend, hnone]
    simp

/-- Witness for C7 at the spec §8 example: "pasta" with max_cooking_time 15
yields a 200 zero-result success, distinguishable from the 503 of a missing
index. -/
theorem empty_results_vs_unavailable_witness :
    (recommendEndpoint (some sampleIndex) pastaQuery).status = 200 ∧
    (recommendEndpoint none pastaQuery).status = 503 ∧
    handleSearch (recommendEndpoint (some sampleIndex) pastaQuery) =
      UIState.emptyState ∧
    handleSearch (recommendEndpoint none pastaQuery) =
      UIState.errorUnavailable := by
  have happ := empty_results_vs_unavailable sampleIndex pastaQuery
    (by decide) (by decide)
  exact ⟨happ.1, happ.2.2.2.1, happ.2.2.1, happ.2.2.2.2.1⟩

end MealRec
